import Mathlib

/-!
Shallow embedding of the authored ETL code of the repository
(`etl/etl/ops/etl.py`, `etl/etl/jobs/run_etl.py`,
`etl/etl/schedules/etl_job_schedule.py`).

The two dagster ops are modelled as producers of a trace of effect
events (log calls, yielded outputs, database calls) together with an
optional Python exception.  External effects whose outcome the code
does not control (sqlalchemy engine creation, connecting, pandas CSV
parsing, `DataFrame.to_sql`) are parameters of a `World`.
-/

namespace HealthETL

/-- A Python exception (`Exception` subclass), identified by `str(e)`. -/
structure Exn where
  msg : String
deriving DecidableEq, Repr

/-- A pandas dataframe, abstracted as its rows of cells. -/
structure Df where
  rows : List (List String)
deriving DecidableEq, Repr

/-- One observable effect performed by an op body. -/
inductive Event where
  | logInfo (msg : String)
  | logError (msg : String)
  | yieldOutput (name : String) (value : String)
  | createEngine (conn : String)
  | connect
  | readCsv (path : String) (encoding : String)
  | readSql (query : String)
  | toSql (table : String) (df : Df) (if_exists : String) (index : Bool)
  | closeConn
deriving DecidableEq, Repr

/-- The hard-coded `files_to_load` list of
`extract_dim_product_category` (file path, table name), with the
Python string-escape processing applied (`\x27` is the apostrophe). -/
def files_to_load : List (String × String) :=
  [ ("C:\\Users\\hp\\Desktop\\health\\data\\Suicide deaths.csv", "Suicide_deaths"),
    ("C:\\Users\\hp\\Desktop\\health\\data\\calcule.csv", "calcule"),
    ("C:\\Users\\hp\\Desktop\\health\\data\\\\Effectif des assurés actifs par Tranche d\x27âge.csv", "Effectif_des_assures_actifs"),
    ("C:\\Users\\hp\\Desktop\\health\\data\\Health in Morocco_wikipedia.csv", "Health_in_Morocco_wikipedia"),
    ("C:\\Users\\hp\\Desktop\\health\\data\\Indicateurs sur les déclarations de salaires CNSS effectuées au titre de l\x27année 2020 ( cnss).csv", "Indicateurs_sur_les_declarations"),
    ("C:\\Users\\hp\\Desktop\\health\\data\\indicateur-sur-la-repartition-des-affilies-par-region.csv", "indicateur_sur_la_repartition_des_affilies"),
    ("C:\\Users\\hp\\Desktop\\health\\data\\indicateur-sur-la-repartition-des-affilies-par-secteur-dactivite cnss.csv", "indicateur_sur_la_repartition_des_secteur"),
    ("C:\\Users\\hp\\Desktop\\health\\data\\indic-soc-sante-mef-2014-3 MEF.csv", "indic_soc_sante_mef_2014_3_MEF"),
    ("C:\\Users\\hp\\Desktop\\health\\data\\infrastructures-privees-2022.csv", "infrastructures_privees"),
    ("C:\\Users\\hp\\Desktop\\health\\data\\offre-de-soins-privees-ms-2013.csv", "offre_de_soins_privees_ms_2013"),
    ("C:\\Users\\hp\\Desktop\\health\\data\\stastique.csv", "stastique") ]

/-- The `for i, (file_path, table_name) in enumerate(files_to_load, start=1)`
loop body of `extract_dim_product_category`: a log line, then
`yield Output(file_path, f"file_path_{i}")`, then
`yield Output(table_name, f"table_name_{i}")`. -/
def extract_loop : Nat → List (String × String) → List Event
  | _, [] => []
  | i, (file_path, table_name) :: rest =>
    Event.logInfo ("Chargement des données à partir de " ++ file_path
        ++ " pour la table " ++ table_name)
      :: Event.yieldOutput ("file_path_" ++ toString i) file_path
      :: Event.yieldOutput ("table_name_" ++ toString i) table_name
      :: extract_loop (i + 1) rest

/-- The `try` body of `extract_dim_product_category`: it builds a
constant list, logs and yields; none of these steps raises, so the
result carries no exception. -/
def extract_body : List Event × Option Exn :=
  (extract_loop 1 files_to_load, none)

/-- The `except Exception as e: context.log.error(...); raise`
boundary shared by both ops: a successful body is passed through
unchanged, a raised exception is logged (prefix ++ `str(e)`) and
re-raised unchanged. -/
def op_boundary (errPrefix : String) :
    List Event × Option Exn → List Event × Option Exn
  | (evs, none) => (evs, none)
  | (evs, some e) => (evs ++ [Event.logError (errPrefix ++ e.msg)], some e)

/-- The op `extract_dim_product_category`. -/
def extract_dim_product_category : List Event × Option Exn :=
  op_boundary "Erreur lors de l\x27extraction des données : " extract_body

/-- The (name, value) pairs yielded as `Output`s, in yield order. -/
def outputs_of (evs : List Event) : List (String × String) :=
  evs.filterMap (fun ev => match ev with
    | Event.yieldOutput n v => some (n, v)
    | _ => none)

/-- The outcomes of the external library calls performed by
`load_dim_product_category`; each may raise a Python exception.
`read_csv` is applied to the file path and the encoding,
`to_sql` to the table name, the dataframe, `if_exists` and `index`. -/
structure World where
  create_engine : String → Except Exn Unit
  connect : Except Exn Unit
  read_csv : String → String → Except Exn Df
  to_sql : String → Df → String → Bool → Except Exn Unit

/-- `server_name` in `load_dim_product_category`. -/
def server_name : String := "DESKTOP-EOHPBP3\\PROJECT"

/-- `database_name` in `load_dim_product_category`. -/
def database_name : String := "health"

/-- `connection_string`, the f-string built in
`load_dim_product_category`; it mentions only `server_name` and
`database_name`. -/
def connection_string : String :=
  "mssql+pyodbc://" ++ server_name ++ "/" ++ database_name
    ++ "?trusted_connection=yes&driver=ODBC+Driver+17+for+SQL+Server"

/-- The `try` body of `load_dim_product_category`, in source order:
`create_engine(connection_string)`; `engine.connect()`;
`pd.read_csv(file_path, encoding='utf-8-sig')`;
`df.to_sql(table_name, con=engine, if_exists='replace', index=False)`;
a success log line; `conn.close()`.  A call that raises produces no
event and stops the body with its exception. -/
def load_body (w : World) (file_path table_name : String) :
    List Event × Option Exn :=
  match w.create_engine connection_string with
  | Except.error e => ([], some e)
  | Except.ok _ =>
    match w.connect with
    | Except.error e => ([Event.createEngine connection_string], some e)
    | Except.ok _ =>
      match w.read_csv file_path "utf-8-sig" with
      | Except.error e =>
        ([Event.createEngine connection_string, Event.connect], some e)
      | Except.ok df =>
        match w.to_sql table_name df "replace" false with
        | Except.error e =>
          ([Event.createEngine connection_string, Event.connect,
            Event.readCsv file_path "utf-8-sig"], some e)
        | Except.ok _ =>
          ([Event.createEngine connection_string, Event.connect,
            Event.readCsv file_path "utf-8-sig",
            Event.toSql table_name df "replace" false,
            Event.logInfo ("Les données ont été importées avec succès dans la table "
              ++ table_name ++ "."),
            Event.closeConn], none)

/-- The op `load_dim_product_category`. -/
def load_dim_product_category (w : World) (file_path table_name : String) :
    List Event × Option Exn :=
  op_boundary "Erreur lors du chargement des données dans SQL Server : "
    (load_body w file_path table_name)

/-- The SQL Server database: a map from table name to contents. -/
def DB : Type := String → Option Df

/-- Effect of one event on the database.  Only `to_sql` writes:
with `if_exists='replace'` the named table is replaced wholesale by
the dataframe; with `'append'` the rows are appended to an existing
table; otherwise an existing table is left as it was. -/
def apply_event (db : DB) : Event → DB
  | Event.toSql table df if_exists _ => fun t =>
      if t = table then
        if if_exists = "replace" then some df
        else
          match db table with
          | none => some df
          | some old =>
            if if_exists = "append" then some ⟨old.rows ++ df.rows⟩ else some old
      else db t
  | _ => db

/-- Run a trace of events against a database. -/
def run_events (db : DB) (evs : List Event) : DB :=
  evs.foldl apply_event db

/-- The declared output order of `extract_dim_product_category`'s
`out=` dict: `file_path_i` then `table_name_i` for i = 1..11.  The
tuple returned when the op is invoked inside a job follows this
order. -/
def out_decl_order : List String :=
  [ "file_path_1", "table_name_1", "file_path_2", "table_name_2",
    "file_path_3", "table_name_3", "file_path_4", "table_name_4",
    "file_path_5", "table_name_5", "file_path_6", "table_name_6",
    "file_path_7", "table_name_7", "file_path_8", "table_name_8",
    "file_path_9", "table_name_9", "file_path_10", "table_name_10",
    "file_path_11", "table_name_11" ]

/-- `extract_results[i]` in the job `etl`: the value the extract op
yielded for the i-th declared output. -/
def extract_results (i : Nat) : Option String :=
  (out_decl_order.get? i).bind
    (fun n => (outputs_of extract_dim_product_category.1).lookup n)

/-- The job `etl`: one invocation of `extract_dim_product_category`,
then eleven calls of `load_dim_product_category`, the i-th receiving
`(extract_results[2(i-1)], extract_results[2(i-1)+1])`, exactly as
wired in `run_etl.py`. -/
def etl : List (Option String × Option String) :=
  [ (extract_results 0, extract_results 1),
    (extract_results 2, extract_results 3),
    (extract_results 4, extract_results 5),
    (extract_results 6, extract_results 7),
    (extract_results 8, extract_results 9),
    (extract_results 10, extract_results 11),
    (extract_results 12, extract_results 13),
    (extract_results 14, extract_results 15),
    (extract_results 16, extract_results 17),
    (extract_results 18, extract_results 19),
    (extract_results 20, extract_results 21) ]

/-- A dagster schedule definition. -/
structure ScheduleDef where
  cron_schedule : String
  job : List (Option String × Option String)
  execution_timezone : String
deriving Repr

/-- `etl_job_schedule`, declared with
`@schedule(cron_schedule="0 10 * * *", job=etl, execution_timezone="US/Central")`. -/
def etl_job_schedule : ScheduleDef :=
  { cron_schedule := "0 10 * * *"
  , job := etl
  , execution_timezone := "US/Central" }

/-- Split a character list on spaces. -/
def split_spaces : List Char → List (List Char)
  | [] => [[]]
  | c :: rest =>
    let r := split_spaces rest
    if c = ' ' then [] :: r
    else
      match r with
      | [] => [[c]]
      | g :: gs => (c :: g) :: gs

/-- The whitespace-separated fields of a cron expression. -/
def cron_fields (s : String) : List String :=
  (split_spaces s.toList).map String.mk

/-- The numeric value of a decimal digit character. -/
def digit_val (c : Char) : Option Nat :=
  if c = '0' then some 0 else if c = '1' then some 1
  else if c = '2' then some 2 else if c = '3' then some 3
  else if c = '4' then some 4 else if c = '5' then some 5
  else if c = '6' then some 6 else if c = '7' then some 7
  else if c = '8' then some 8 else if c = '9' then some 9
  else none

/-- Parse a run of decimal digits, left to right. -/
def parse_nat_from : Nat → List Char → Option Nat
  | acc, [] => some acc
  | acc, c :: rest =>
    match digit_val c with
    | none => none
    | some d => parse_nat_from (acc * 10 + d) rest

/-- Parse a nonempty all-digit cron field as a number. -/
def parse_field (f : String) : Option Nat :=
  match f.toList with
  | [] => none
  | cs => parse_nat_from 0 cs

/-- A cron field matches a value when it is `*` or that number. -/
def field_matches (f : String) (v : Nat) : Bool :=
  f == "*" || parse_field f == some v

/-- Whether a five-field cron expression fires at a given
minute / hour / day-of-month / month / day-of-week. -/
def cron_fires (s : String) (minute hour dom month dow : Nat) : Bool :=
  match cron_fields s with
  | [mi, h, d, mo, w] =>
    field_matches mi minute && field_matches h hour && field_matches d dom
      && field_matches mo month && field_matches w dow
  | _ => false

/-- Is the event a `pandas.read_sql` call? -/
def is_read_sql : Event → Bool
  | Event.readSql _ => true
  | _ => false

/-- Is the event a `pandas.read_csv` call? -/
def is_read_csv : Event → Bool
  | Event.readCsv _ _ => true
  | _ => false

/-- Is the event the `engine.connect()` call? -/
def is_connect : Event → Bool
  | Event.connect => true
  | _ => false

/-- Is the event the `conn.close()` call? -/
def is_close : Event → Bool
  | Event.closeConn => true
  | _ => false

/-- Is the event a `context.log.error` call? -/
def is_log_error : Event → Bool
  | Event.logError _ => true
  | _ => false

/-- The connection strings passed to `create_engine` in a trace. -/
def engine_strings (evs : List Event) : List String :=
  evs.filterMap (fun ev => match ev with
    | Event.createEngine c => some c
    | _ => none)

/-- A sample dataframe. -/
def df0 : Df := ⟨[["r1c1", "r1c2"], ["r2c1", "r2c2"]]⟩

/-- A world in which every external call succeeds and every CSV
parses to `df0`. -/
def w_ok : World :=
  { create_engine := fun _ => Except.ok ()
  , connect := Except.ok ()
  , read_csv := fun _ _ => Except.ok df0
  , to_sql := fun _ _ _ _ => Except.ok () }

/-- A world in which `pd.read_csv` raises (e.g. the file is missing)
and everything else succeeds. -/
def w_read_fail : World :=
  { create_engine := fun _ => Except.ok ()
  , connect := Except.ok ()
  , read_csv := fun _ _ => Except.error ⟨"file not found"⟩
  , to_sql := fun _ _ _ _ => Except.ok () }

/-- An empty database. -/
def db_empty : DB := fun _ => none

/-- A database in which the destination table already exists with
other contents. -/
def db_pre : DB :=
  fun t => if t = "dest_table" then some ⟨[["old"]]⟩ else none

/-- Claim C2: `extract_dim_product_category` hard-codes exactly eleven
(Windows file path, table name) pairs and on every run yields them all
in list order, the i-th pair as output `file_path_i` (the path) then
`table_name_i` (the table name), 22 outputs in total. -/
theorem extract_yields_eleven_pairs_in_order :
    files_to_load.length = 11 ∧
    (outputs_of extract_dim_product_category.1).length = 22 ∧
    outputs_of extract_dim_product_category.1 =
      [ ("file_path_1", "C:\\Users\\hp\\Desktop\\health\\data\\Suicide deaths.csv"),
        ("table_name_1", "Suicide_deaths"),
        ("file_path_2", "C:\\Users\\hp\\Desktop\\health\\data\\calcule.csv"),
        ("table_name_2", "calcule"),
        ("file_path_3", "C:\\Users\\hp\\Desktop\\health\\data\\\\Effectif des assurés actifs par Tranche d\x27âge.csv"),
        ("table_name_3", "Effectif_des_assures_actifs"),
        ("file_path_4", "C:\\Users\\hp\\Desktop\\health\\data\\Health in Morocco_wikipedia.csv"),
        ("table_name_4", "Health_in_Morocco_wikipedia"),
        ("file_path_5", "C:\\Users\\hp\\Desktop\\health\\data\\Indicateurs sur les déclarations de salaires CNSS effectuées au titre de l\x27année 2020 ( cnss).csv"),
        ("table_name_5", "Indicateurs_sur_les_declarations"),
        ("file_path_6", "C:\\Users\\hp\\Desktop\\health\\data\\indicateur-sur-la-repartition-des-affilies-par-region.csv"),
        ("table_name_6", "indicateur_sur_la_repartition_des_affilies"),
        ("file_path_7", "C:\\Users\\hp\\Desktop\\health\\data\\indicateur-sur-la-repartition-des-affilies-par-secteur-dactivite cnss.csv"),
        ("table_name_7", "indicateur_sur_la_repartition_des_secteur"),
        ("file_path_8", "C:\\Users\\hp\\Desktop\\health\\data\\indic-soc-sante-mef-2014-3 MEF.csv"),
        ("table_name_8", "indic_soc_sante_mef_2014_3_MEF"),
        ("file_path_9", "C:\\Users\\hp\\Desktop\\health\\data\\infrastructures-privees-2022.csv"),
        ("table_name_9", "infrastructures_privees"),
        ("file_path_10", "C:\\Users\\hp\\Desktop\\health\\data\\offre-de-soins-privees-ms-2013.csv"),
        ("table_name_10", "offre_de_soins_privees_ms_2013"),
        ("file_path_11", "C:\\Users\\hp\\Desktop\\health\\data\\stastique.csv"),
        ("table_name_11", "stastique") ] :=
  ⟨rfl, rfl, by decide⟩

/-- Claim C3: the job `etl` invokes the extract op once and the load
op eleven times, the i-th load call receiving exactly the extract
outputs `file_path_i` and `table_name_i`, i.e. the i-th hard-coded
pair, with no pair skipped, duplicated, or mismatched. -/
theorem etl_wires_eleven_matching_pairs :
    etl.length = 11 ∧
    etl = files_to_load.map (fun p => (some p.1, some p.2)) :=
  ⟨rfl, by decide⟩

/-- Claim C9: the hard-coded list is a 1:1 pairing — the eleven file
paths are pairwise distinct and the eleven table names are pairwise
distinct. -/
theorem files_to_load_pairing_one_to_one :
    files_to_load.length = 11 ∧
    (files_to_load.map Prod.fst).Nodup ∧
    (files_to_load.map Prod.snd).Nodup := by
  refine ⟨rfl, by decide, by decide⟩

/-- Claim C10: the error branch of `extract_dim_product_category` is
unreachable — its try body only builds a constant list, logs and
yields, so every run succeeds with no exception, never logs an error,
and emits all 22 outputs. -/
theorem extract_error_branch_unreachable :
    extract_body.2 = none ∧
    extract_dim_product_category = (extract_body.1, none) ∧
    extract_dim_product_category.1.all (fun ev => !(is_log_error ev)) = true ∧
    (outputs_of extract_dim_product_category.1).length = 22 :=
  ⟨rfl, rfl, by decide, rfl⟩

/-- Claim C7: `etl_job_schedule` triggers the job `etl` with the cron
expression `0 10 * * *` in the fixed execution timezone `US/Central`;
that cron expression fires exactly when the minute is 0 and the hour
is 10, i.e. daily. -/
theorem etl_job_schedule_daily_cron :
    etl_job_schedule.cron_schedule = "0 10 * * *" ∧
    etl_job_schedule.execution_timezone = "US/Central" ∧
    etl_job_schedule.job = etl ∧
    ∀ minute hour dom month dow : Nat,
      cron_fires etl_job_schedule.cron_schedule minute hour dom month dow = true ↔
        minute = 0 ∧ hour = 10 := by
  refine ⟨rfl, rfl, rfl, ?_⟩
  intro minute hour dom month dow
  have hs : cron_fields "0 10 * * *" = ["0", "10", "*", "*", "*"] := by decide
  have h1 : ("0" == "*") = false := by decide
  have h2 : ("10" == "*") = false := by decide
  have h3 : ("*" == "*") = true := by decide
  have h4 : parse_field "0" = some 0 := by decide
  have h5 : parse_field "10" = some 10 := by decide
  show cron_fires "0 10 * * *" minute hour dom month dow = true ↔ _
  simp only [cron_fires, hs, field_matches, h1, h2, h3, h4, h5,
    Bool.false_or, Bool.true_or, Bool.and_true, Bool.true_and,
    Bool.and_eq_true, beq_iff_eq, Option.some.injEq]
  constructor
  · rintro ⟨hm, hh⟩
    exact ⟨hm.symm, hh.symm⟩
  · rintro ⟨hm, hh⟩
    exact ⟨hm.symm, hh.symm⟩

/-- The cron expression of `etl_job_schedule` does fire at
minute 0, hour 10 of an arbitrary date. -/
theorem etl_job_schedule_daily_cron_witness :
    cron_fires etl_job_schedule.cron_schedule 0 10 15 6 3 = true :=
  (etl_job_schedule_daily_cron.2.2.2 0 10 15 6 3).mpr ⟨rfl, rfl⟩

/-- In every run of the load op, the strings passed to
`create_engine` are `[]` (when `create_engine` itself raised) or
exactly one copy of `connection_string`. -/
theorem engine_strings_load (w : World) (fp tn : String) :
    engine_strings (load_dim_product_category w fp tn).1
      = match w.create_engine connection_string with
        | Except.error _ => []
        | Except.ok _ => [connection_string] := by
  rcases hce : w.create_engine connection_string with e | u
  · simp [load_dim_product_category, op_boundary, load_body, hce, engine_strings]
  · rcases hcn : w.connect with e | u2
    · simp [load_dim_product_category, op_boundary, load_body, hce, hcn, engine_strings]
    · rcases hrc : w.read_csv fp "utf-8-sig" with e | df
      · simp [load_dim_product_category, op_boundary, load_body, hce, hcn, hrc,
          engine_strings]
      · rcases hts : w.to_sql tn df "replace" false with e | u3
        · simp [load_dim_product_category, op_boundary, load_body, hce, hcn, hrc, hts,
            engine_strings]
        · simp [load_dim_product_category, op_boundary, load_body, hce, hcn, hrc, hts,
            engine_strings]

/-- Claim C8: `load_dim_product_category` builds the same connection
string on every pair of inputs — the constant ODBC string naming the
fixed server `DESKTOP-EOHPBP3\PROJECT` and the fixed database
`health`; the connection target is independent of the inputs. -/
theorem load_connection_target_fixed (w : World) (fp tn fp' tn' : String) :
    engine_strings (load_dim_product_category w fp tn).1
      = engine_strings (load_dim_product_category w fp' tn').1 ∧
    connection_string
      = "mssql+pyodbc://DESKTOP-EOHPBP3\\PROJECT/health?trusted_connection=yes&driver=ODBC+Driver+17+for+SQL+Server" ∧
    (engine_strings (load_dim_product_category w fp tn).1).all
      (fun c => c == connection_string) = true := by
  refine ⟨?_, by decide, ?_⟩
  · rw [engine_strings_load w fp tn, engine_strings_load w fp' tn']
  · rw [engine_strings_load w fp tn]
    rcases w.create_engine connection_string with e | u
    · simp
    · simp

/-- The connection strings of two load runs on different inputs
coincide. -/
theorem load_connection_target_fixed_witness :
    engine_strings (load_dim_product_category w_ok "a.csv" "t1").1
      = engine_strings (load_dim_product_category w_ok "b.csv" "t2").1 :=
  (load_connection_target_fixed w_ok "a.csv" "t1" "b.csv" "t2").1

/-- A successful run of `load_dim_product_category` performs no
`pandas.read_sql` call at all: it obtains the data with
`pandas.read_csv`.  This refutes the claim that the data written to
the table is obtained by a `read_sql` call on the file path. -/
theorem load_run_has_no_read_sql :
    (load_dim_product_category w_ok "C:\\data\\input.csv" "dest_table").2 = none ∧
    (load_dim_product_category w_ok "C:\\data\\input.csv" "dest_table").1.all
      (fun ev => !(is_read_sql ev)) = true ∧
    (load_dim_product_category w_ok "C:\\data\\input.csv" "dest_table").1.any
      is_read_csv = true :=
  ⟨rfl, by decide, by decide⟩

/-- Claim C1 (amended): `load_dim_product_category` loads the CSV
into the table via `pandas.read_csv` and `DataFrame.to_sql` — on
every successful invocation the data written by `to_sql` is the
dataframe `pd.read_csv(file_path, encoding='utf-8-sig')` returned,
and no `read_sql` call occurs. -/
theorem load_reads_csv_and_writes_via_to_sql (w : World) (fp tn : String)
    (h : (load_dim_product_category w fp tn).2 = none) :
    ∃ df, w.read_csv fp "utf-8-sig" = Except.ok df ∧
      Event.readCsv fp "utf-8-sig" ∈ (load_dim_product_category w fp tn).1 ∧
      Event.toSql tn df "replace" false ∈ (load_dim_product_category w fp tn).1 ∧
      (load_dim_product_category w fp tn).1.all
        (fun ev => !(is_read_sql ev)) = true := by
  rcases hce : w.create_engine connection_string with e | u
  · simp [load_dim_product_category, op_boundary, load_body, hce] at h
  · rcases hcn : w.connect with e | u2
    · simp [load_dim_product_category, op_boundary, load_body, hce, hcn] at h
    · rcases hrc : w.read_csv fp "utf-8-sig" with e | df
      · simp [load_dim_product_category, op_boundary, load_body, hce, hcn, hrc] at h
      · rcases hts : w.to_sql tn df "replace" false with e | u3
        · simp [load_dim_product_category, op_boundary, load_body, hce, hcn, hrc,
            hts] at h
        · refine ⟨df, rfl, ?_, ?_, ?_⟩ <;>
            simp [load_dim_product_category, op_boundary, load_body, hce, hcn, hrc,
              hts, is_read_sql]

/-- A concrete successful load run reading a CSV and writing it via
`to_sql`, with no `read_sql` call. -/
theorem load_reads_csv_and_writes_via_to_sql_witness :
    ∃ df, w_ok.read_csv "C:\\data\\input.csv" "utf-8-sig" = Except.ok df ∧
      Event.readCsv "C:\\data\\input.csv" "utf-8-sig"
        ∈ (load_dim_product_category w_ok "C:\\data\\input.csv" "dest_table").1 ∧
      Event.toSql "dest_table" df "replace" false
        ∈ (load_dim_product_category w_ok "C:\\data\\input.csv" "dest_table").1 ∧
      (load_dim_product_category w_ok "C:\\data\\input.csv" "dest_table").1.all
        (fun ev => !(is_read_sql ev)) = true :=
  load_reads_csv_and_writes_via_to_sql w_ok "C:\\data\\input.csv" "dest_table" rfl

/-- When `pd.read_csv` raises, the load op re-raises after logging,
with the `engine.connect()` connection opened but never closed: the
trace holds one connect event and no close event.  This refutes the
claim that the connection is closed on every execution path. -/
theorem load_error_path_leaves_connection_open :
    (load_dim_product_category w_read_fail "C:\\data\\input.csv" "dest_table").2
      = some ⟨"file not found"⟩ ∧
    (load_dim_product_category w_read_fail "C:\\data\\input.csv" "dest_table").1.countP
      is_connect = 1 ∧
    (load_dim_product_category w_read_fail "C:\\data\\input.csv" "dest_table").1.countP
      is_close = 0 :=
  ⟨rfl, by decide, by decide⟩

/-- Claim C4 (amended): every invocation of the load op opens at most
one connection; the connection is closed exactly on the successful
path (one close event on success, none on the error path), and a
successful run opens exactly one connection. -/
theorem load_connection_lifecycle (w : World) (fp tn : String) :
    (load_dim_product_category w fp tn).1.countP is_connect ≤ 1 ∧
    (load_dim_product_category w fp tn).1.countP is_close
      = (if (load_dim_product_category w fp tn).2 = none then 1 else 0) ∧
    ((load_dim_product_category w fp tn).2 = none →
      (load_dim_product_category w fp tn).1.countP is_connect = 1) := by
  rcases hce : w.create_engine connection_string with e | u
  · simp [load_dim_product_category, op_boundary, load_body, hce, is_connect, is_close]
  · rcases hcn : w.connect with e | u2
    · simp [load_dim_product_category, op_boundary, load_body, hce, hcn, is_connect,
        is_close]
    · rcases hrc : w.read_csv fp "utf-8-sig" with e | df
      · simp [load_dim_product_category, op_boundary, load_body, hce, hcn, hrc,
          is_connect, is_close]
      · rcases hts : w.to_sql tn df "replace" false with e | u3
        · simp [load_dim_product_category, op_boundary, load_body, hce, hcn, hrc, hts,
            is_connect, is_close]
        · simp [load_dim_product_category, op_boundary, load_body, hce, hcn, hrc, hts,
            is_connect, is_close]

/-- On a concrete successful run the connection is opened once and
closed once. -/
theorem load_connection_lifecycle_witness :
    (load_dim_product_category w_ok "C:\\data\\input.csv" "tbl").1.countP
      is_connect = 1 :=
  (load_connection_lifecycle w_ok "C:\\data\\input.csv" "tbl").2.2 rfl

/-- Claim C5: on every successful invocation the destination table is
replaced wholesale — the write carries `if_exists='replace'` and
`index=False`, and afterwards the named table's contents equal
exactly the dataframe read from the CSV, whatever the prior database
contents. -/
theorem load_replaces_table_wholesale (w : World) (fp tn : String) (db : DB)
    (h : (load_dim_product_category w fp tn).2 = none) :
    ∃ df, w.read_csv fp "utf-8-sig" = Except.ok df ∧
      Event.toSql tn df "replace" false ∈ (load_dim_product_category w fp tn).1 ∧
      run_events db (load_dim_product_category w fp tn).1 tn = some df := by
  rcases hce : w.create_engine connection_string with e | u
  · simp [load_dim_product_category, op_boundary, load_body, hce] at h
  · rcases hcn : w.connect with e | u2
    · simp [load_dim_product_category, op_boundary, load_body, hce, hcn] at h
    · rcases hrc : w.read_csv fp "utf-8-sig" with e | df
      · simp [load_dim_product_category, op_boundary, load_body, hce, hcn, hrc] at h
      · rcases hts : w.to_sql tn df "replace" false with e | u3
        · simp [load_dim_product_category, op_boundary, load_body, hce, hcn, hrc,
            hts] at h
        · refine ⟨df, rfl, ?_, ?_⟩ <;>
            simp [load_dim_product_category, op_boundary, load_body, hce, hcn, hrc,
              hts, run_events, apply_event]

/-- A concrete successful load against a database in which the
destination table already exists with other rows: afterwards the
table holds exactly the dataframe read from the CSV. -/
theorem load_replaces_table_wholesale_witness :
    ∃ df, w_ok.read_csv "C:\\data\\input.csv" "utf-8-sig" = Except.ok df ∧
      Event.toSql "dest_table" df "replace" false
        ∈ (load_dim_product_category w_ok "C:\\data\\input.csv" "dest_table").1 ∧
      run_events db_pre
        (load_dim_product_category w_ok "C:\\data\\input.csv" "dest_table").1
        "dest_table" = some df :=
  load_replaces_table_wholesale w_ok "C:\\data\\input.csv" "dest_table" db_pre rfl

/-- Claim C6: the shared try/except boundary of both ops catches an
exception raised in the body, logs it, and re-raises it unchanged
(never swallowing it); both `extract_dim_product_category` and
`load_dim_product_category` are wrapped by exactly this boundary with
their respective error-log prefixes. -/
theorem op_catches_logs_and_reraises (body : List Event × Option Exn)
    (errPrefix : String) (e : Exn) (h : body.2 = some e) :
    (op_boundary errPrefix body).2 = some e ∧
    (op_boundary errPrefix body).1
      = body.1 ++ [Event.logError (errPrefix ++ e.msg)] ∧
    extract_dim_product_category
      = op_boundary "Erreur lors de l\x27extraction des données : " extract_body ∧
    ∀ w fp tn, load_dim_product_category w fp tn
      = op_boundary "Erreur lors du chargement des données dans SQL Server : "
          (load_body w fp tn) := by
  obtain ⟨evs, r⟩ := body
  simp only at h
  subst h
  exact ⟨rfl, rfl, rfl, fun _ _ _ => rfl⟩

/-- A concrete raised exception is re-raised unchanged by the op
boundary. -/
theorem op_catches_logs_and_reraises_witness :
    (op_boundary "p: " ([Event.connect], some ⟨"boom"⟩)).2
      = some (⟨"boom"⟩ : Exn) :=
  (op_catches_logs_and_reraises ([Event.connect], some ⟨"boom"⟩) "p: "
    ⟨"boom"⟩ rfl).1

end HealthETL
